import Mathlib

/-!
Verification of the metric/formatting core of the e-commerce sales
dashboard (`dashboard.py`).  Real numbers of the source are embedded as
rationals; pandas "NaN/None" undefined values are embedded as `Option`;
the decimal renderings of Python's format strings are embedded by
explicit rounding helpers.
-/

namespace Dashboard

/-- Decimal rendering of an f-string `{q:.0f}`: the value rounded to an
integer (ties modelled by round-half-up). -/
def fmtQ0 (q : ℚ) : String :=
  toString (round q)

/-- Decimal rendering of an f-string `{q:.1f}`: one decimal place
(ties modelled by round-half-up). -/
def fmtQ1 (q : ℚ) : String :=
  let n : ℤ := round (q * 10)
  (if n < 0 then "-" else "") ++ toString (n.natAbs / 10) ++ "." ++ toString (n.natAbs % 10)

/-- Decimal rendering of an f-string `{q:.2f}`: two decimal places
(ties modelled by round-half-up). -/
def fmtQ2 (q : ℚ) : String :=
  let n : ℤ := round (q * 100)
  (if n < 0 then "-" else "") ++ toString (n.natAbs / 100) ++ "." ++
    (if n.natAbs % 100 < 10 then "0" else "") ++ toString (n.natAbs % 100)

/-- Embeds `fmt_compact` (dashboard.py lines 113-122): format a dollar
value as $2M, $1.5M, $300K, $45.  The Python test `m % 1 != 0` (nonzero
fractional part) is `m.den ≠ 1` on rationals. -/
def fmt_compact (v : ℚ) : String :=
  if 1000000 ≤ |v| then
    let m := v / 1000000
    if m.den ≠ 1 then "$" ++ fmtQ1 m ++ "M" else "$" ++ fmtQ0 m ++ "M"
  else if 1000 ≤ |v| then
    let k := v / 1000
    "$" ++ fmtQ0 k ++ "K"
  else
    "$" ++ fmtQ0 v

/-- Semantic content of the HTML span returned by `trend_badge`: either
the neutral "no data" em-dash badge, or a badge carrying the favorable
flag (green vs red), the arrow direction, and the signed percentage. -/
inductive Trend where
  | noData : Trend
  | badge (favorable : Bool) (up : Bool) (pct : ℚ) : Trend
deriving DecidableEq

/-- Embeds `trend_badge` (dashboard.py lines 125-135).  `None` and NaN
inputs are both embedded as `none`.  `pct = (current - previous) /
|previous| * 100`; `positive_outcome = pct < 0 if lower_is_better else
pct > 0`; the arrow is up iff `pct > 0`. -/
def trend_badge (current previous : Option ℚ) (lower_is_better : Bool := false) : Trend :=
  match previous with
  | none => .noData
  | some p =>
    if p = 0 then .noData
    else
      match current with
      | none => .noData
      | some c =>
        let pct := (c - p) / |p| * 100
        let positive_outcome := if lower_is_better then decide (pct < 0) else decide (0 < pct)
        .badge positive_outcome (decide (0 < pct)) pct

/-- The HTML string of dashboard.py lines 128/130/135 rendered from a
`Trend`: color #16a34a when favorable, #dc2626 otherwise, arrow from the
direction, and the unsigned percentage to two decimal places. -/
def renderTrend : Trend → String
  | .noData => "<span style=\"color:#6b7280\">—</span>"
  | .badge favorable up pct =>
    let color := if favorable then "#16a34a" else "#dc2626"
    let arrow := if up then "↑" else "↓"
    "<span style=\"color:" ++ color ++ "\">" ++ arrow ++ " " ++ fmtQ2 |pct| ++ "%</span>"

/-- Embeds `make_y_ticks` (dashboard.py lines 138-149): compute
nicely-spaced tick values and compact string labels.
`magnitude = 10 ** floor(log10(raw_step))` is `(10:ℚ) ^ Int.log 10
raw_step` on positive rationals. -/
def make_y_ticks (max_val : ℚ) (n : ℕ := 5) : List ℚ × List String :=
  if max_val ≤ 0 then ([0], ["$0"])
  else
    let raw_step := max_val / ((n : ℚ) - 1)
    let magnitude : ℚ := (10 : ℚ) ^ (Int.log 10 raw_step)
    let nice_step : ℚ := (⌈raw_step / magnitude⌉ : ℚ) * magnitude
    let ticks := (List.range n).map (fun i => (i : ℚ) * nice_step)
    (ticks, ticks.map fmt_compact)

/-- One order line record, after the loading layer: derived year/month,
unit price, order identifier, purchase day and optional delivery day
(day numbers stand for timestamps), and the derived delivery speed. -/
structure OrderRec where
  order_id : ℕ
  price : ℚ
  year : ℤ
  month : ℕ
  purchase_day : ℤ
  delivery_day : Option ℤ
  delivery_speed : Option ℤ := none
deriving DecidableEq

/-- Modelled from the spec: `filter_by_period` (data_loader, not under
src/) keeps records whose derived year equals the target year exactly
and, when a month is given, whose derived month equals it. -/
def filter_by_period (records : List OrderRec) (year : ℤ) (month : Option ℕ) : List OrderRec :=
  records.filter fun r =>
    (r.year == year) && (match month with | none => true | some m => r.month == m)

/-- Modelled from the spec: `calculate_delivery_speed` (data_loader, not
under src/) derives the delivery speed in days between purchase and
delivery for each record; absent when the delivery timestamp is
missing. -/
def calculate_delivery_speed (records : List OrderRec) : List OrderRec :=
  records.map fun r => { r with delivery_speed := r.delivery_day.map (· - r.purchase_day) }

/-- Modelled from the spec: `calculate_revenue` (business_metrics, not
under src/): sum of unit prices; 0 on the empty subset. -/
def calculate_revenue (records : List OrderRec) : ℚ :=
  (records.map (·.price)).sum

/-- Modelled from the spec: `calculate_order_count` (business_metrics,
not under src/): count of distinct order identifiers. -/
def calculate_order_count (records : List OrderRec) : ℕ :=
  ((records.map (·.order_id)).dedup).length

/-- Modelled from the spec: `calculate_avg_order_value`
(business_metrics, not under src/): revenue divided by order count,
undefined when the order count is 0. -/
def calculate_avg_order_value (records : List OrderRec) : Option ℚ :=
  if calculate_order_count records = 0 then none
  else some (calculate_revenue records / calculate_order_count records)

/-- Embeds dashboard.py lines 196-198: the current-period subset. -/
def current_df (delivered : List OrderRec) (analysis_year : ℤ) (analysis_month : Option ℕ) :
    List OrderRec :=
  calculate_delivery_speed (filter_by_period delivered analysis_year analysis_month)

/-- Embeds dashboard.py lines 193 and 199-201: the comparison subset,
built from `comparison_year = analysis_year - 1`. -/
def comparison_df (delivered : List OrderRec) (analysis_year : ℤ) (analysis_month : Option ℕ) :
    List OrderRec :=
  calculate_delivery_speed (filter_by_period delivered (analysis_year - 1) analysis_month)

/-- Embeds dashboard.py line 202: `has_comparison = not comparison_df.empty`. -/
def has_comparison (delivered : List OrderRec) (analysis_year : ℤ) (analysis_month : Option ℕ) :
    Bool :=
  !(comparison_df delivered analysis_year analysis_month).isEmpty

/-- Embeds dashboard.py line 206: previous-period revenue, `None`
without a comparison subset. -/
def prev_rev (delivered : List OrderRec) (analysis_year : ℤ) (analysis_month : Option ℕ) :
    Option ℚ :=
  if has_comparison delivered analysis_year analysis_month then
    some (calculate_revenue (comparison_df delivered analysis_year analysis_month))
  else none

/-- Embeds dashboard.py line 209: previous-period average order value,
`None` without a comparison subset. -/
def prev_aov (delivered : List OrderRec) (analysis_year : ℤ) (analysis_month : Option ℕ) :
    Option ℚ :=
  if has_comparison delivered analysis_year analysis_month then
    calculate_avg_order_value (comparison_df delivered analysis_year analysis_month)
  else none

/-- Embeds dashboard.py line 212: previous-period order count, `None`
without a comparison subset. -/
def prev_orders (delivered : List OrderRec) (analysis_year : ℤ) (analysis_month : Option ℕ) :
    Option ℕ :=
  if has_comparison delivered analysis_year analysis_month then
    some (calculate_order_count (comparison_df delivered analysis_year analysis_month))
  else none

/-- The non-NaN entries of a pandas series embedded as `List (Option ℚ)`
(`Series.dropna`). -/
def dropna (s : List (Option ℚ)) : List ℚ :=
  s.filterMap id

/-- Pandas `Series.mean`: the arithmetic mean of the non-NaN entries,
NaN (here `none`) when no entry is defined. -/
def seriesMean (s : List (Option ℚ)) : Option ℚ :=
  if (dropna s).isEmpty then none else some ((dropna s).sum / (dropna s).length)

/-- Embeds dashboard.py line 215:
`avg_mom = mom_series.mean() if not mom_series.dropna().empty else 0.0`.
In the first branch the mean is defined, so `getD 0` is never the
default. -/
def avg_mom (mom_series : List (Option ℚ)) : ℚ :=
  if !(dropna mom_series).isEmpty then (seriesMean mom_series).getD 0 else 0

/-- One row of the delivery-satisfaction frame: a delivery bucket label
and the review score of the record. -/
structure SatRec where
  delivery_bucket : String
  review_score : ℚ
deriving DecidableEq

/-- The fixed bucket labels of dashboard.py line 409. -/
def buckets : List String :=
  ["1-3 days", "4-7 days", "8+ days"]

/-- Mean of a list of scores, `none` when empty (pandas mean of an empty
group / reindex hole is NaN). -/
def meanScore (scores : List ℚ) : Option ℚ :=
  if scores.isEmpty then none else some (scores.sum / scores.length)

/-- Embeds dashboard.py lines 410-415: drop the "Unknown" bucket, group
by delivery bucket, take the mean review score, and reindex on the three
named buckets. -/
def bucket_means (sat_df : List SatRec) : List (String × Option ℚ) :=
  let known := sat_df.filter fun r => r.delivery_bucket != "Unknown"
  buckets.map fun b =>
    (b, meanScore ((known.filter fun r => r.delivery_bucket == b).map (·.review_score)))

/-- Embeds dashboard.py lines 170-172:
`sorted(delivered["year"].dropna().astype(int).unique(), reverse=True)`.
The year column is a list of optional years; missing entries are
dropped, duplicates removed, and the result sorted descending. -/
def available_years (year_col : List (Option ℤ)) : List ℤ :=
  List.insertionSort (· ≥ ·) (year_col.filterMap id).dedup

/-- Embeds dashboard.py lines 181-182: the selector defaults to index
`available_years.index(2023)` when 2023 is available, else index 0, so
the default selection is the year at that index. -/
def default_year (year_col : List (Option ℤ)) : ℤ :=
  if 2023 ∈ available_years year_col then 2023
  else (available_years year_col).headD 0

end Dashboard

open Dashboard in
/-- Claim C2: `trend_badge` returns the neutral em-dash "no data" badge
if and only if the previous value is undefined or zero, or the current
value is undefined; no percentage is part of the result in those cases
(the `noData` constructor carries none). -/
theorem trend_badge_noData_iff (current previous : Option ℚ) (b : Bool) :
    trend_badge current previous b = .noData ↔
      previous = none ∨ previous = some 0 ∨ current = none := by
  cases previous with
  | none => simp [trend_badge]
  | some p =>
    by_cases hp : p = 0
    · simp [trend_badge, hp]
    · cases current with
      | none => simp [trend_badge, hp]
      | some c => simp [trend_badge, hp]

open Dashboard in
/-- Claim C3: for defined current and previous with previous nonzero,
`trend_badge` computes `pct = (current - previous) / |previous| * 100`,
the arrow is up exactly when `pct > 0`, the badge is favorable exactly
when `pct > 0` (or `pct < 0` under `lower_is_better`), and the rendered
badge shows the unsigned percentage to two decimal places; in
particular `trend(110, 100, false)` is favorable, up, "10.00%" and
`trend(90, 100, true)` is favorable, down, "10.00%". -/
theorem trend_badge_defined_spec :
    (∀ (c p : ℚ) (b : Bool), p ≠ 0 →
      ∃ fav up : Bool, ∃ pct : ℚ,
        trend_badge (some c) (some p) b = .badge fav up pct ∧
        pct = (c - p) / |p| * 100 ∧
        (up = true ↔ 0 < pct) ∧
        (fav = true ↔ if b then pct < 0 else 0 < pct) ∧
        renderTrend (.badge fav up pct) =
          "<span style=\"color:" ++ (if fav then "#16a34a" else "#dc2626") ++ "\">" ++
            (if up then "↑" else "↓") ++ " " ++ fmtQ2 |pct| ++ "%</span>") ∧
    trend_badge (some 110) (some 100) false = .badge true true 10 ∧
    renderTrend (trend_badge (some 110) (some 100) false) =
      "<span style=\"color:#16a34a\">↑ 10.00%</span>" ∧
    trend_badge (some 90) (some 100) true = .badge true false (-10) ∧
    renderTrend (trend_badge (some 90) (some 100) true) =
      "<span style=\"color:#16a34a\">↓ 10.00%</span>" := by
  have h110 : trend_badge (some 110) (some 100) false = .badge true true 10 := by
    simp only [trend_badge]
    rw [if_neg (by norm_num)]
    norm_num
  have h90 : trend_badge (some 90) (some 100) true = .badge true false (-10) := by
    simp only [trend_badge]
    rw [if_neg (by norm_num)]
    norm_num
  refine ⟨?_, h110, ?_, h90, ?_⟩
  · intro c p b hp
    refine ⟨(if b then decide ((c - p) / |p| * 100 < 0) else decide (0 < (c - p) / |p| * 100)),
      decide (0 < (c - p) / |p| * 100), (c - p) / |p| * 100, ?_, rfl, by simp, ?_, rfl⟩
    · simp only [trend_badge]
      rw [if_neg hp]
    · cases b <;> simp
  · rw [h110]
    simp only [renderTrend, fmtQ2]
    norm_num [round_eq]
    decide
  · rw [h90]
    simp only [renderTrend, fmtQ2]
    norm_num [round_eq]
    decide

open Dashboard in
/-- Witness for C3: the concrete conjuncts of the theorem, and its
general clause applied at current 90, previous 100 with the
`previous ≠ 0` hypothesis discharged. -/
theorem trend_badge_defined_spec_witness :
    trend_badge (some 110) (some 100) false = .badge true true 10 ∧
    trend_badge (some 90) (some 100) true ≠ .noData := by
  refine ⟨trend_badge_defined_spec.2.1, ?_⟩
  obtain ⟨fav, up, pct, hbadge, -, -, -, -⟩ :=
    trend_badge_defined_spec.1 90 100 true (by norm_num)
  rw [hbadge]
  simp

open Dashboard in
/-- Claim C10: a zero change (current = previous, both defined,
previous nonzero) yields `pct = 0`, rendered with a down arrow as
"0.00%" and tagged unfavorable, for both polarities of
`lower_is_better`. -/
theorem trend_badge_zero_change (x : ℚ) (hx : x ≠ 0) (b : Bool) :
    trend_badge (some x) (some x) b = .badge false false 0 ∧
    renderTrend (trend_badge (some x) (some x) b) =
      "<span style=\"color:#dc2626\">↓ 0.00%</span>" := by
  have hb : trend_badge (some x) (some x) b = .badge false false 0 := by
    simp only [trend_badge]
    rw [if_neg hx]
    cases b <;> simp
  refine ⟨hb, ?_⟩
  rw [hb]
  simp only [renderTrend, fmtQ2]
  norm_num [round_eq]
  decide

open Dashboard in
/-- Witness for C10 at current = previous = 5 with `lower_is_better`
false. -/
theorem trend_badge_zero_change_witness :
    trend_badge (some 5) (some 5) false = .badge false false 0 ∧
    renderTrend (trend_badge (some 5) (some 5) false) =
      "<span style=\"color:#dc2626\">↓ 0.00%</span>" :=
  trend_badge_zero_change 5 (by norm_num) false

open Dashboard in
/-- Claim C4: `fmt_compact` formats magnitudes of at least one million
as "$<m>M" with one decimal, dropping the decimal when the mantissa is
an integer; magnitudes of at least one thousand as "$<k>K" with the
thousands mantissa rounded to an integer; everything else as "$<v>"
rounded to an integer — so fmt(2300000) = "$2.3M", fmt(1000000) =
"$1M", fmt(45000) = "$45K", fmt(7) = "$7". -/
theorem fmt_compact_spec :
    fmt_compact 2300000 = "$2.3M" ∧
    fmt_compact 1000000 = "$1M" ∧
    fmt_compact 45000 = "$45K" ∧
    fmt_compact 7 = "$7" ∧
    (∀ v : ℚ, 1000000 ≤ |v| →
      fmt_compact v =
        (if (v / 1000000).den ≠ 1 then "$" ++ fmtQ1 (v / 1000000) ++ "M"
         else "$" ++ fmtQ0 (v / 1000000) ++ "M")) ∧
    (∀ v : ℚ, 1000 ≤ |v| → |v| < 1000000 →
      fmt_compact v = "$" ++ fmtQ0 (v / 1000) ++ "K") ∧
    (∀ v : ℚ, |v| < 1000 → fmt_compact v = "$" ++ fmtQ0 v) := by
  refine ⟨?_, ?_, ?_, ?_, ?_, ?_, ?_⟩
  · simp only [fmt_compact, fmtQ0, fmtQ1]
    norm_num [round_eq, Rat.den]
    decide
  · simp only [fmt_compact, fmtQ0, fmtQ1]
    norm_num [round_eq, Rat.den]
    decide
  · simp only [fmt_compact, fmtQ0, fmtQ1]
    norm_num [round_eq, Rat.den]
    decide
  · simp only [fmt_compact, fmtQ0]
    norm_num [round_eq]
    decide
  · intro v hv
    simp only [fmt_compact]
    rw [if_pos hv]
  · intro v hv hv'
    simp only [fmt_compact]
    rw [if_neg (by exact not_le.mpr hv'), if_pos hv]
  · intro v hv
    simp only [fmt_compact]
    rw [if_neg (by exact not_le.mpr (lt_of_lt_of_le hv (by norm_num))),
      if_neg (by exact not_le.mpr hv)]

open Dashboard in
/-- Witness for C4: the first concrete equation, and the K branch
applied at -45000 with both magnitude hypotheses discharged. -/
theorem fmt_compact_spec_witness :
    fmt_compact 2300000 = "$2.3M" ∧
    fmt_compact (-45000) = "$" ++ fmtQ0 ((-45000) / 1000) ++ "K" :=
  ⟨fmt_compact_spec.1,
    fmt_compact_spec.2.2.2.2.2.1 (-45000) (by norm_num) (by norm_num)⟩

open Dashboard in
/-- Claim C5: for a negative input, `fmt_compact` picks its branch by
the absolute value (suffix M for magnitudes of a million and up, suffix
K for thousands, the plain rendering below a thousand), and the output
never starts with a minus sign: its first character is the dollar
sign. -/
theorem fmt_compact_negative (v : ℚ) (_hv : v < 0) :
    (fmt_compact v).data.head? = some '$' ∧
    (1000000 ≤ |v| → (fmt_compact v).data.getLast? = some 'M') ∧
    (1000 ≤ |v| → |v| < 1000000 → (fmt_compact v).data.getLast? = some 'K') ∧
    (|v| < 1000 → fmt_compact v = "$" ++ fmtQ0 v) := by
  refine ⟨?_, ?_, ?_, ?_⟩
  · simp only [fmt_compact]
    split
    · split
      · simp only [String.data_append, List.cons_append]
        rfl
      · simp only [String.data_append, List.cons_append]
        rfl
    · split
      · simp only [String.data_append, List.cons_append]
        rfl
      · simp only [String.data_append]
        rfl
  · intro h
    simp only [fmt_compact]
    rw [if_pos h]
    split <;>
      · simp only [String.data_append]
        exact List.getLast?_concat _
  · intro h h'
    simp only [fmt_compact]
    rw [if_neg (not_le.mpr h'), if_pos h]
    simp only [String.data_append]
    exact List.getLast?_concat _
  · intro h
    simp only [fmt_compact]
    rw [if_neg (not_le.mpr (lt_of_lt_of_le h (by norm_num))), if_neg (not_le.mpr h)]

open Dashboard in
/-- Witness for C5 at -45000: head character '$' and the K suffix, with
the hypotheses discharged. -/
theorem fmt_compact_negative_witness :
    (fmt_compact (-45000)).data.head? = some '$' ∧
    (fmt_compact (-45000)).data.getLast? = some 'K' :=
  ⟨(fmt_compact_negative (-45000) (by norm_num)).1,
    (fmt_compact_negative (-45000) (by norm_num)).2.2.1 (by norm_num) (by norm_num)⟩

open Dashboard in
/-- Claim C6: the Average-Monthly-Growth KPI equals the arithmetic mean
of the non-undefined month-over-month deltas of the growth series; when
every delta is undefined or the series is empty it is 0 by convention,
never undefined. -/
theorem avg_mom_spec (s : List (Option ℚ)) :
    (dropna s ≠ [] → avg_mom s = (dropna s).sum / (dropna s).length) ∧
    (dropna s = [] → avg_mom s = 0) := by
  constructor
  · intro h
    have hne : (dropna s).isEmpty = false := by
      simp [List.isEmpty_iff, h]
    simp [avg_mom, seriesMean, hne]
  · intro h
    simp [avg_mom, h]

open Dashboard in
/-- Witness for C6: a series with one undefined and two defined deltas
averages to the mean of the defined ones, and an all-undefined series
averages to 0; both hypotheses discharged concretely. -/
theorem avg_mom_spec_witness :
    avg_mom [none, some 2, some 4] =
      (dropna [none, some 2, some 4]).sum / (dropna [none, some 2, some 4]).length ∧
    avg_mom [none, none] = 0 :=
  ⟨(avg_mom_spec [none, some 2, some 4]).1 (by simp [Dashboard.dropna]),
    (avg_mom_spec [none, none]).2 (by simp [Dashboard.dropna])⟩

open Dashboard in
/-- Claim C7: the comparison subset is the current-period pipeline run
at year − 1 with the same month selection, and each previous-period KPI
is the same calculator applied to that subset — `none` for all of them
when the comparison subset is empty. -/
theorem comparison_period_spec (d : List OrderRec) (y : ℤ) (m : Option ℕ) :
    comparison_df d y m = current_df d (y - 1) m ∧
    (comparison_df d y m ≠ [] →
      prev_rev d y m = some (calculate_revenue (comparison_df d y m)) ∧
      prev_aov d y m = calculate_avg_order_value (comparison_df d y m) ∧
      prev_orders d y m = some (calculate_order_count (comparison_df d y m))) ∧
    (comparison_df d y m = [] →
      prev_rev d y m = none ∧ prev_aov d y m = none ∧ prev_orders d y m = none) := by
  refine ⟨rfl, ?_, ?_⟩
  · intro h
    have hc : has_comparison d y m = true := by
      simp [has_comparison, List.isEmpty_iff, h]
    exact ⟨by simp [prev_rev, hc], by simp [prev_aov, hc], by simp [prev_orders, hc]⟩
  · intro h
    have hc : has_comparison d y m = false := by
      simp [has_comparison, List.isEmpty_iff, h]
    exact ⟨by simp [prev_rev, hc], by simp [prev_aov, hc], by simp [prev_orders, hc]⟩

open Dashboard in
/-- Witness for C7 on a two-record data set: analysing 2023 with no
month filter compares against the 2022 record, and all three previous
KPIs come from the comparison subset. -/
theorem comparison_period_spec_witness :
    prev_rev
        [{ order_id := 1, price := 10, year := 2023, month := 1,
           purchase_day := 0, delivery_day := none },
         { order_id := 2, price := 7, year := 2022, month := 3,
           purchase_day := 0, delivery_day := none }] 2023 none =
      some (calculate_revenue (comparison_df
        [{ order_id := 1, price := 10, year := 2023, month := 1,
           purchase_day := 0, delivery_day := none },
         { order_id := 2, price := 7, year := 2022, month := 3,
           purchase_day := 0, delivery_day := none }] 2023 none)) ∧
    prev_aov
        [{ order_id := 1, price := 10, year := 2023, month := 1,
           purchase_day := 0, delivery_day := none },
         { order_id := 2, price := 7, year := 2022, month := 3,
           purchase_day := 0, delivery_day := none }] 2023 none =
      calculate_avg_order_value (comparison_df
        [{ order_id := 1, price := 10, year := 2023, month := 1,
           purchase_day := 0, delivery_day := none },
         { order_id := 2, price := 7, year := 2022, month := 3,
           purchase_day := 0, delivery_day := none }] 2023 none) ∧
    prev_orders
        [{ order_id := 1, price := 10, year := 2023, month := 1,
           purchase_day := 0, delivery_day := none },
         { order_id := 2, price := 7, year := 2022, month := 3,
           purchase_day := 0, delivery_day := none }] 2023 none =
      some (calculate_order_count (comparison_df
        [{ order_id := 1, price := 10, year := 2023, month := 1,
           purchase_day := 0, delivery_day := none },
         { order_id := 2, price := 7, year := 2022, month := 3,
           purchase_day := 0, delivery_day := none }] 2023 none)) :=
  (comparison_period_spec _ 2023 none).2.1
    (by simp [Dashboard.comparison_df, Dashboard.calculate_delivery_speed,
      Dashboard.filter_by_period])

open Dashboard in
/-- Filtering on a named bucket after dropping "Unknown" rows is the
same as filtering on that bucket directly, whenever the bucket is not
"Unknown". -/
lemma filter_bucket_of_ne (sat : List SatRec) (b : String) (hb : b ≠ "Unknown") :
    ((sat.filter fun r => r.delivery_bucket != "Unknown").filter
        fun r => r.delivery_bucket == b) =
      sat.filter fun r => r.delivery_bucket == b := by
  induction sat with
  | nil => rfl
  | cons r t ih =>
    by_cases h : r.delivery_bucket = b
    · have h1 : (r.delivery_bucket != "Unknown") = true := by simp [h, hb]
      have h2 : (r.delivery_bucket == b) = true := by simp [h]
      simp only [List.filter_cons, h1, h2, if_pos, ih]
    · have h2 : (r.delivery_bucket == b) = false := by simp [h]
      by_cases hU : r.delivery_bucket = "Unknown"
      · have h1 : (r.delivery_bucket != "Unknown") = false := by simp [hU]
        simp [List.filter_cons, h1, h2, ih]
      · have h1 : (r.delivery_bucket != "Unknown") = true := by simp [hU]
        simp [List.filter_cons, h1, h2, ih]

open Dashboard in
/-- The bucket means are, bucket by bucket, the mean review score of
exactly the records carrying that bucket label. -/
lemma bucket_means_eq_group (sat : List SatRec) :
    bucket_means sat =
      buckets.map fun b =>
        (b, meanScore ((sat.filter fun r => r.delivery_bucket == b).map (·.review_score))) := by
  simp only [bucket_means, buckets, List.map_cons, List.map_nil]
  rw [filter_bucket_of_ne sat _ (by decide), filter_bucket_of_ne sat _ (by decide),
    filter_bucket_of_ne sat _ (by decide)]

open Dashboard in
/-- Claim C8: each displayed bucket mean is computed only over records
whose bucket is one of "1-3 days", "4-7 days", "8+ days"; records in
the "Unknown" bucket are excluded from every bucket mean, so removing
them changes nothing. -/
theorem bucket_means_excludes_unknown (sat : List SatRec) :
    bucket_means sat =
      (buckets.map fun b =>
        (b, meanScore ((sat.filter fun r => r.delivery_bucket == b).map (·.review_score)))) ∧
    bucket_means sat =
      bucket_means (sat.filter fun r => r.delivery_bucket != "Unknown") := by
  refine ⟨bucket_means_eq_group sat, ?_⟩
  rw [bucket_means_eq_group, bucket_means_eq_group]
  simp only [buckets, List.map_cons, List.map_nil]
  rw [filter_bucket_of_ne sat _ (by decide), filter_bucket_of_ne sat _ (by decide),
    filter_bucket_of_ne sat _ (by decide)]

open Dashboard in
/-- Claim C9: the year selector's options are exactly the distinct
years of the delivered records, sorted most recent first, and the
default selection is 2023 when available, otherwise the most recent
(maximal) available year. -/
theorem year_selector_spec (ys : List (Option ℤ)) :
    (∀ a : ℤ, a ∈ available_years ys ↔ some a ∈ ys) ∧
    (available_years ys).Sorted (· > ·) ∧
    (2023 ∈ available_years ys → default_year ys = 2023) ∧
    (available_years ys ≠ [] → 2023 ∉ available_years ys →
      default_year ys ∈ available_years ys ∧
      ∀ a ∈ available_years ys, a ≤ default_year ys) := by
  have hperm := List.perm_insertionSort (· ≥ ·) (ys.filterMap id).dedup
  have hmem : ∀ a : ℤ, a ∈ available_years ys ↔ some a ∈ ys := by
    intro a
    rw [available_years, hperm.mem_iff, List.mem_dedup, List.mem_filterMap]
    constructor
    · rintro ⟨x, hx, hid⟩
      exact hid ▸ hx
    · intro h
      exact ⟨some a, h, rfl⟩
  have hsortge : (available_years ys).Sorted (· ≥ ·) := List.sorted_insertionSort _ _
  have hnd : (available_years ys).Nodup :=
    (hperm.symm).nodup (List.nodup_dedup _)
  have hsort : (available_years ys).Sorted (· > ·) := by
    have h3 := List.Pairwise.and hsortge hnd
    exact h3.imp fun hab => lt_of_le_of_ne hab.1 (Ne.symm hab.2)
  refine ⟨hmem, hsort, ?_, ?_⟩
  · intro h
    simp [default_year, h]
  · intro hne h2023
    rcases hava : available_years ys with _ | ⟨x, t⟩
    · exact absurd hava hne
    · have h2023' : (2023 : ℤ) ∉ x :: t := hava ▸ h2023
      have hd : default_year ys = x := by
        simp only [default_year, hava]
        rw [if_neg h2023']
        rfl
      have hxt : ∀ b ∈ t, x ≥ b := by
        have hs := hava ▸ hsortge
        exact (List.sorted_cons.mp hs).1
      rw [hd]
      constructor
      · exact List.mem_cons_self x t
      · intro a ha
        rcases List.mem_cons.mp ha with h | h
        · exact h.le
        · exact hxt a h

open Dashboard in
/-- Witness for C9: with years {2022, 2023} the default is 2023; with
years {2020, 2021} (no 2023) the default is available and at least
2021, the most recent year; all hypotheses discharged concretely. -/
theorem year_selector_spec_witness :
    Dashboard.default_year [some 2022, none, some 2023, some 2022] = 2023 ∧
    Dashboard.default_year [some 2020, some 2021] ∈
      Dashboard.available_years [some 2020, some 2021] ∧
    (2021 : ℤ) ≤ Dashboard.default_year [some 2020, some 2021] :=
  ⟨(year_selector_spec [some 2022, none, some 2023, some 2022]).2.2.1 (by decide),
    ((year_selector_spec [some 2020, some 2021]).2.2.2 (by decide) (by decide)).1,
    ((year_selector_spec [some 2020, some 2021]).2.2.2 (by decide) (by decide)).2
      2021 (by decide)⟩

open Dashboard in
/-- The step `make_y_ticks` chooses for the default count 5: the raw
step `max_val / 4` rounded up to a multiple of its power-of-ten
magnitude. -/
def nice_step5 (max_val : ℚ) : ℚ :=
  (⌈(max_val / 4) / (10 : ℚ) ^ Int.log 10 (max_val / 4)⌉ : ℚ) *
    (10 : ℚ) ^ Int.log 10 (max_val / 4)

open Dashboard in
/-- For a positive maximum, `make_y_ticks` with the default tick count
produces the multiples 0..4 of `nice_step5` and their compact labels. -/
lemma make_y_ticks_five (max_val : ℚ) (h : 0 < max_val) :
    make_y_ticks max_val 5 =
      ([0, nice_step5 max_val, 2 * nice_step5 max_val,
          3 * nice_step5 max_val, 4 * nice_step5 max_val],
        [0, nice_step5 max_val, 2 * nice_step5 max_val,
          3 * nice_step5 max_val, 4 * nice_step5 max_val].map fmt_compact) := by
  simp only [make_y_ticks, nice_step5]
  rw [if_neg (not_le.mpr h)]
  norm_num [List.range_succ]

open Dashboard in
/-- Claim C1: `make_y_ticks` returns the single tick 0 labelled "$0"
for a non-positive maximum; for a positive maximum with the default
count 5 it returns five evenly spaced, strictly increasing ticks
`0, s, 2s, 3s, 4s` labelled by `fmt_compact`, where the step `s` is the
raw step `max_val / 4` rounded up to the next multiple of
`10 ^ floor(log10(raw step))` (a multiple that is at least the raw step
and less than one magnitude above it), so the top tick `4 s` reaches
`max_val`. -/
theorem make_y_ticks_spec (max_val : ℚ) :
    (max_val ≤ 0 → make_y_ticks max_val 5 = ([0], ["$0"])) ∧
    (0 < max_val →
      ∃ s : ℚ,
        0 < s ∧
        (make_y_ticks max_val 5).1 = [0, s, 2 * s, 3 * s, 4 * s] ∧
        List.Chain' (· < ·) [0, s, 2 * s, 3 * s, 4 * s] ∧
        (make_y_ticks max_val 5).2 = [0, s, 2 * s, 3 * s, 4 * s].map fmt_compact ∧
        (∃ k : ℤ, s = (k : ℚ) * (10 : ℚ) ^ Int.log 10 (max_val / 4)) ∧
        max_val / 4 ≤ s ∧
        s < max_val / 4 + (10 : ℚ) ^ Int.log 10 (max_val / 4) ∧
        max_val ≤ 4 * s) := by
  constructor
  · intro h
    simp [make_y_ticks, h]
  · intro h
    have heq := make_y_ticks_five max_val h
    have hmagpos : (0 : ℚ) < (10 : ℚ) ^ Int.log 10 (max_val / 4) :=
      zpow_pos (by norm_num) _
    have hraw : (0 : ℚ) < max_val / 4 := by positivity
    have hsge : max_val / 4 ≤ nice_step5 max_val := by
      have h1 := Int.le_ceil ((max_val / 4) / (10 : ℚ) ^ Int.log 10 (max_val / 4))
      have h2 := mul_le_mul_of_nonneg_right h1 hmagpos.le
      rwa [div_mul_cancel₀ _ hmagpos.ne'] at h2
    have hspos : (0 : ℚ) < nice_step5 max_val := lt_of_lt_of_le hraw hsge
    have hslt : nice_step5 max_val < max_val / 4 + (10 : ℚ) ^ Int.log 10 (max_val / 4) := by
      have h1 := Int.ceil_lt_add_one ((max_val / 4) / (10 : ℚ) ^ Int.log 10 (max_val / 4))
      have h2 := mul_lt_mul_of_pos_right h1 hmagpos
      rwa [add_mul, one_mul, div_mul_cancel₀ _ hmagpos.ne'] at h2
    refine ⟨nice_step5 max_val, hspos, by rw [heq], ?_, by rw [heq], ⟨_, rfl⟩, hsge, hslt, ?_⟩
    · refine List.Chain'.cons hspos (List.Chain'.cons (by linarith)
        (List.Chain'.cons (by linarith) (List.Chain'.cons (by linarith) ?_)))
      exact List.chain'_singleton _
    · linarith

open Dashboard in
/-- Witness for C1: the degenerate branch at max −3 with `−3 ≤ 0`
discharged, and the positive branch at max 437 with `0 < 437`
discharged — the ticks evaluate to `[0, 200, 400, 600, 800]`, so the
chosen step 200 satisfies `437 ≤ 4 · 200`. -/
theorem make_y_ticks_spec_witness :
    make_y_ticks (-3) 5 = ([0], ["$0"]) ∧
    (make_y_ticks 437 5).1 = [0, 200, 400, 600, 800] ∧
    (437 : ℚ) ≤ 4 * 200 := by
  have heval : (make_y_ticks 437 5).1 = [0, 200, 400, 600, 800] := by
    have hlog : Int.log 10 ((437:ℚ)/4) = 2 := by
      rw [Int.log_of_one_le_right _ (by norm_num)]
      rw [show ⌊((437:ℚ)/4)⌋₊ = 109 by rw [Nat.floor_eq_iff (by norm_num)]; norm_num]
      rw [show Nat.log 10 109 = 2 from Nat.log_eq_of_pow_le_of_lt_pow (by norm_num) (by norm_num)]
      norm_num
    have hceil : ⌈((437:ℚ)/400)⌉ = 2 := by
      rw [Int.ceil_eq_iff]
      constructor <;> norm_num
    simp only [make_y_ticks]
    rw [if_neg (by norm_num)]
    norm_num [hlog, List.range_succ, hceil]
  refine ⟨(make_y_ticks_spec (-3)).1 (by norm_num), heval, ?_⟩
  obtain ⟨s, -, hticks, -, -, -, -, -, htop⟩ := (make_y_ticks_spec 437).2 (by norm_num)
  have hs : s = 200 := by
    have h2 := heval.symm.trans hticks
    simp only [List.cons.injEq] at h2
    exact h2.2.1.symm
  rw [hs] at htop
  exact htop
